import Mathlib

/-!
# weather-api-server: a shallow embedding of `main.go`

The Go program is one HTTP handler (`weatherHandler`), one provider client
(`fetchWeatherData`) and four pure helpers.  The embedding follows the source
function by function.

Modelling conventions

* The program is read twice.  The first reading (namespace `WeatherServer`)
  takes `float64` values as rationals `ℚ` with exact arithmetic: every finite
  `float64` is a rational and comparisons of floats are exact; it decides the
  claims that do not depend on rounding.  The second reading (namespace
  `WeatherServer.IEEE`) gives `float64` its own arithmetic, the type `Float64`
  with correctly rounded `+ - * /`, the infinities and NaN; it decides what the
  arithmetic of the source returns.
* A Go `error` is modelled by its description, the string `err.Error()`
  (which is also what the `%v` verb prints).
* The outside world (the provider's answer to `http.Get`, the result of
  reading the body, and `json.Unmarshal`) is a parameter `World` of the
  functions that touch it; theorems quantify over every `World`.
* Outbound calls and log lines are collected in the result, so that
  "no provider call is made" is a statement about a list.
-/

namespace WeatherServer

/-! ## Data model (main.go, lines 12-28) -/

/-- The constant `openWeatherAPIKey`. -/
def openWeatherAPIKey : String := "YOUR_API_KEY"

/-- The struct `MainData`: the temperature in Kelvin as sent by the provider. -/
structure MainData where
  Temp : ℚ
  deriving DecidableEq

/-- The struct `WeatherData`: one condition descriptor. -/
structure WeatherData where
  Description : String
  deriving DecidableEq

/-- The struct `WeatherResponse`: the decoded provider payload. -/
structure WeatherResponse where
  Main : MainData
  Weather : List WeatherData
  deriving DecidableEq

/-- The Go zero value `WeatherResponse{}`. -/
def WeatherResponse.zero : WeatherResponse :=
  { Main := { Temp := 0 }, Weather := [] }

/-- A Go `error`, represented by its description `err.Error()`. -/
abbrev GoError := String

/-! ## Pure helpers (main.go, lines 102-129) -/

/-- The function `getWeatherCondition`: description of the first condition, or `""`. -/
def getWeatherCondition (resp : WeatherResponse) : String :=
  if resp.Weather.length > 0 then
    match resp.Weather with
    | w :: _ => w.Description
    | [] => ""
  else
    ""

/-- The function `getTemperatureCelsius`, read with exact arithmetic:
`resp.Main.Temp - 273.15`.  The `float64` reading is `IEEE.getTemperatureCelsius`. -/
def getTemperatureCelsius (resp : WeatherResponse) : ℚ :=
  resp.Main.Temp - 273.15

/-- The function `getTemperatureCategory`: the two strict comparisons of the source. -/
def getTemperatureCategory (tempCelsius : ℚ) : String :=
  if tempCelsius < 5 then
    "cold"
  else if tempCelsius > 25 then
    "hot"
  else
    "moderate"

/-- The function `celsiusToFahrenheit`, read with exact arithmetic: `celsius*9/5 + 32`,
parsed as `((celsius*9)/5) + 32`.  The `float64` reading is `IEEE.celsiusToFahrenheit`. -/
def celsiusToFahrenheit (celsius : ℚ) : ℚ :=
  celsius * 9 / 5 + 32

/-! ## The `%.2f` verb of `fmt` -/

/-- Rounding of a non-negative rational to the nearest natural number, ties to even
(the rule of `strconv` when it cuts a decimal expansion). -/
def roundHalfEven (q : ℚ) : ℕ :=
  let n := q.num.toNat
  let d := q.den
  let f := n / d
  let r := n % d
  if 2 * r < d then f
  else if d < 2 * r then f + 1
  else if f % 2 = 0 then f else f + 1

/-- Two decimal digits of a number below 100, with a leading zero. -/
def twoDigits (n : ℕ) : String :=
  (if n < 10 then "0" else "") ++ toString n

/-- The verb `%.2f`: sign, integer part, a point and two decimals; the magnitude is
rounded to the nearest hundredth, ties to even. -/
def formatFixed2 (q : ℚ) : String :=
  let h := roundHalfEven (|q| * 100)
  (if q < 0 then "-" else "") ++ toString (h / 100) ++ "." ++ twoDigits (h % 100)

/-! ## HTTP types of `net/http` and `net/url` as far as the handler uses them -/

/-- The type `url.Values`, a map from a key to the list of its values, as an
association list (the first entry of a key is the map's entry). -/
abbrev Values := List (String × List String)

/-- The map lookup `v[key]`: a missing key gives the nil slice. -/
def Values.lookup (v : Values) (key : String) : List String :=
  match v with
  | [] => []
  | (k, vs) :: rest => if k = key then vs else Values.lookup rest key

/-- The method `url.Values.Get`: the first value of the key, `""` when there is none. -/
def Values.Get (v : Values) (key : String) : String :=
  match Values.lookup v key with
  | [] => ""
  | x :: _ => x

/-- The part of `*http.Request` the handler reads: the parsed query `r.URL.Query()`. -/
structure Request where
  query : Values

/-- What has been written to an `http.ResponseWriter`. -/
structure Response where
  header : List (String × String)
  status : ℕ
  body : String
  deriving DecidableEq

/-- The value `http.StatusOK`. -/
def StatusOK : ℕ := 200

/-- The value `http.StatusBadRequest`. -/
def StatusBadRequest : ℕ := 400

/-- The value `http.StatusInternalServerError`. -/
def StatusInternalServerError : ℕ := 500

/-- The call `h.Set(key, value)` on a header map. -/
def headerSet (h : List (String × String)) (key value : String) : List (String × String) :=
  (key, value) :: h.filter (fun kv => kv.1 ≠ key)

/-- The call `h.Get(key)` on a header map. -/
def headerGet (h : List (String × String)) (key : String) : String :=
  match h.find? (fun kv => kv.1 = key) with
  | some kv => kv.2
  | none => ""

/-- The function `http.Error(w, error, code)` on a fresh writer: it sets the two headers,
writes the status and prints the message with `fmt.Fprintln`. -/
def httpError (error : String) (code : ℕ) : Response :=
  { header := headerSet (headerSet [] "Content-Type" "text/plain; charset=utf-8")
      "X-Content-Type-Options" "nosniff",
    status := code,
    body := error ++ "\n" }

/-- The provider's answer when `http.Get` returns no error: the status code and the
result of `ioutil.ReadAll(resp.Body)`. -/
structure HttpResponse where
  StatusCode : ℕ
  Body : Except GoError String

/-- The outside world of the provider client. `httpGet url` is the result of
`http.Get(url)`; `jsonUnmarshal body v` is `json.Unmarshal(body, &v)`: the
value left in `v` and the error, if any. -/
structure World where
  httpGet : String → Except GoError HttpResponse
  jsonUnmarshal : String → WeatherResponse → WeatherResponse × Option GoError

/-! ## The provider client (main.go, lines 30-55) -/

/-- The URL built by `fmt.Sprintf` in `fetchWeatherData`. -/
def apiURL (lat long : String) : String :=
  "https://api.openweathermap.org/data/2.5/weather?lat=" ++ lat ++ "&lon=" ++ long ++
    "&appid=" ++ openWeatherAPIKey

/-- The result of `fetchWeatherData`: the Go pair `(WeatherResponse, error)` and the
URLs requested with `http.Get` during the call. -/
structure FetchResult where
  resp : WeatherResponse
  err : Option GoError
  requested : List String

/-- The function `fetchWeatherData`. -/
def fetchWeatherData (world : World) (lat long : String) : FetchResult :=
  let url := apiURL lat long
  match world.httpGet url with
  | .error err =>
    { resp := WeatherResponse.zero,
      err := some ("failed to fetch weather data: " ++ err),
      requested := [url] }
  | .ok resp =>
    match resp.Body with
    | .error err =>
      { resp := WeatherResponse.zero,
        err := some ("failed to read response body: " ++ err),
        requested := [url] }
    | .ok body =>
      match world.jsonUnmarshal body WeatherResponse.zero with
      | (_, some err) =>
        { resp := WeatherResponse.zero,
          err := some ("failed to decode weather data: " ++ err),
          requested := [url] }
      | (weatherResp, none) =>
        { resp := weatherResp, err := none, requested := [url] }

/-! ## The request handler (main.go, lines 57-100) -/

/-- What one run of `weatherHandler` does: the response written, the URLs requested
from the provider, and the log lines (without the logger's time prefix). -/
structure Handled where
  response : Response
  requested : List String
  logs : List String

/-- The text built by `fmt.Sprintf` for the success body. -/
def responseText (weatherCondition : String) (tempCelsius tempFahrenheit : ℚ)
    (temperature : String) : String :=
  "Weather condition: " ++ weatherCondition ++ "\nTemperature: " ++ formatFixed2 tempCelsius ++
    "ºC (" ++ formatFixed2 tempFahrenheit ++ "ºF) (" ++ temperature ++ ")"

/-- The function `weatherHandler`. -/
def weatherHandler (world : World) (r : Request) : Handled :=
  let lat := r.query.Get "lat"
  let long := r.query.Get "long"
  let log0 := ["Latitude: " ++ lat ++ ", Longitude: " ++ long]
  if lat = "" ∨ long = "" then
    { response := httpError "Latitude and longitude are required" StatusBadRequest,
      requested := [],
      logs := log0 }
  else
    let fetched := fetchWeatherData world lat long
    match fetched.err with
    | some err =>
      { response := httpError err StatusInternalServerError,
        requested := fetched.requested,
        logs := log0 }
    | none =>
      let weatherResp := fetched.resp
      let weatherCondition := getWeatherCondition weatherResp
      let tempCelsius := getTemperatureCelsius weatherResp
      let tempFahrenheit := celsiusToFahrenheit tempCelsius
      let temperature := getTemperatureCategory tempCelsius
      let response := responseText weatherCondition tempCelsius tempFahrenheit temperature
      { response :=
          { header := headerSet [] "Content-Type" "text/plain",
            status := StatusOK,
            body := response ++ "\n" },
        requested := fetched.requested,
        logs := log0 ++
          ["Weather Condition: " ++ weatherCondition ++ "\n",
           "Temperature in Celsius: " ++ formatFixed2 tempCelsius ++ "\n",
           "Temperature in Fahrenheit: " ++ formatFixed2 tempFahrenheit ++ "\n"] }

/-! ## Worlds and requests used as concrete inputs, and the order of categories -/

/-- The provider payload of the end-to-end example. -/
def examplePayload : String :=
  "\x7b\"main\":\x7b\"temp\":300.15\x7d,\"weather\":[\x7b\"description\":\"clear sky\"\x7d]\x7d"

/-- The structure `json.Unmarshal` decodes `examplePayload` to. -/
def exampleDecoded : WeatherResponse :=
  { Main := { Temp := 300.15 }, Weather := [{ Description := "clear sky" }] }

/-- A world whose provider answers every request with status 200 and `examplePayload`. -/
def exampleWorld : World :=
  { httpGet := fun _ => .ok { StatusCode := 200, Body := .ok examplePayload },
    jsonUnmarshal := fun body v =>
      if body = examplePayload then (exampleDecoded, none)
      else (v, some "unexpected end of JSON input") }

/-- A world in which `http.Get` fails. -/
def unreachableWorld : World :=
  { httpGet := fun _ => .error "dial tcp: connection refused",
    jsonUnmarshal := fun _ v => (v, none) }

/-- The request `GET /weather?lat=10&long=20`. -/
def exampleRequest : Request := { query := [("lat", ["10"]), ("long", ["20"])] }

/-- The request `GET /weather?lat=10`, without `long`. -/
def requestWithoutLong : Request := { query := [("lat", ["10"])] }

/-- A world whose provider answers 200 with a payload that has no condition. -/
def noConditionWorld : World :=
  { httpGet := fun _ =>
      .ok { StatusCode := 200, Body := .ok "\x7b\"main\":\x7b\"temp\":293.15\x7d,\"weather\":[]\x7d" },
    jsonUnmarshal := fun _ _ => ({ Main := { Temp := 293.15 }, Weather := [] }, none) }

/-- A world whose provider answers 401 with its error document; `json.Unmarshal` finds
none of the fields of `WeatherResponse` in it and leaves the value as it was. -/
def unauthorizedWorld : World :=
  { httpGet := fun _ =>
      .ok { StatusCode := 401,
            Body := .ok "\x7b\"cod\":401, \"message\": \"Invalid API key.\"\x7d" },
    jsonUnmarshal := fun _ v => (v, none) }

/-- The world `world` with every provider answer's status code replaced by `code`. -/
def World.withStatusCode (world : World) (code : ℕ) : World :=
  { httpGet := fun url =>
      match world.httpGet url with
      | .error e => .error e
      | .ok resp => .ok { StatusCode := code, Body := resp.Body },
    jsonUnmarshal := world.jsonUnmarshal }

/-- The place of a category in the order cold < moderate < hot. -/
def categoryRank (category : String) : ℕ :=
  if category = "cold" then 0
  else if category = "moderate" then 1
  else if category = "hot" then 2
  else 3

/-- A world whose provider's body cannot be read to the end. -/
def brokenBodyWorld : World :=
  { httpGet := fun _ => .ok { StatusCode := 200, Body := .error "unexpected EOF" },
    jsonUnmarshal := fun _ v => (v, none) }

/-- A world whose provider sends a string where the condition list belongs:
`json.Unmarshal` has stored the temperature when it reports the type error. -/
def mistypedWorld : World :=
  { httpGet := fun _ =>
      .ok { StatusCode := 200,
            Body := .ok "\x7b\"main\":\x7b\"temp\":280\x7d,\"weather\":\"rain\"\x7d" },
    jsonUnmarshal := fun _ v =>
      ({ Main := { Temp := 280 }, Weather := v.Weather },
        some "json: cannot unmarshal string into Go struct field WeatherResponse.weather of type []main.WeatherData") }

/-- The request `GET /weather?lat=north%20pole&long=1%26appid%3Dx`, after query parsing. -/
def oddRequest : Request := { query := [("lat", ["north pole"]), ("long", ["1&appid=x"])] }

/-! ## The float64 arithmetic of the source

The definitions above read the program with exact arithmetic.  The section
below reads it with the arithmetic the Go compiler gives it: every `float64`
operation returns the exact result rounded to the nearest `float64` (ties to
even), or an infinity from `2 ^ 1024` on. -/

/-- A `float64` value: a finite number, an infinity or NaN.  The sign of zero is not
kept: no value the handler prints is a zero with a sign. -/
inductive Float64 where
  | finite (value : ℚ)
  | inf (negative : Bool)
  | nan
  deriving DecidableEq

/-- The binary logarithm of `n`, rounded down, in at most `fuel` halvings. -/
def log2Fuel : ℕ → ℕ → ℕ
  | 0, _ => 0
  | fuel + 1, n => if n < 2 then 0 else log2Fuel fuel (n / 2) + 1

/-- The binary logarithm of `n`, rounded down (`0` for `n = 0`). -/
def natLog2 (n : ℕ) : ℕ := log2Fuel n n

/-- The largest `e` with `2 ^ e ≤ n / d`, for positive `n` and `d`. -/
def floorLog2 (n d : ℕ) : ℤ :=
  if 2 ^ natLog2 n * d ≤ n * 2 ^ natLog2 d then (natLog2 n : ℤ) - (natLog2 d : ℤ)
  else (natLog2 n : ℤ) - (natLog2 d : ℤ) - 1

/-- The natural number nearest to `n / d`, ties to even. -/
def roundHalfEvenDiv (n d : ℕ) : ℕ :=
  if 2 * (n % d) < d then n / d
  else if d < 2 * (n % d) then n / d + 1
  else if n / d % 2 = 0 then n / d else n / d + 1

/-- The `float64` nearest to a number, ties to even: 53 significant bits, the unit in
the last place never below `2 ^ (-1074)`, and an infinity when the rounded magnitude
reaches `2 ^ 1024`. -/
def Float64.round (q : ℚ) : Float64 :=
  if q.num.natAbs = 0 then .finite 0
  else
    let e := max (floorLog2 q.num.natAbs q.den) (-1022)
    let up := (52 - e).toNat
    let down := (e - 52).toNat
    let m := roundHalfEvenDiv (q.num.natAbs * 2 ^ up) (q.den * 2 ^ down)
    let magnitude : ℚ := ((m * 2 ^ down : ℕ) : ℚ) / ((2 ^ up : ℕ) : ℚ)
    if ((2 ^ 1024 : ℕ) : ℚ) ≤ magnitude then .inf (decide (q < 0))
    else .finite (if q < 0 then -magnitude else magnitude)

/-- The operator `+` of `float64`. -/
def Float64.add : Float64 → Float64 → Float64
  | .finite a, .finite b => Float64.round (a + b)
  | .finite _, .inf s => .inf s
  | .inf s, .finite _ => .inf s
  | .inf s, .inf t => if s = t then .inf s else .nan
  | .nan, _ => .nan
  | _, .nan => .nan

/-- The operator `-` of `float64`. -/
def Float64.sub : Float64 → Float64 → Float64
  | .finite a, .finite b => Float64.round (a - b)
  | .finite _, .inf s => .inf (!s)
  | .inf s, .finite _ => .inf s
  | .inf s, .inf t => if s = t then .nan else .inf s
  | .nan, _ => .nan
  | _, .nan => .nan

/-- The operator `*` of `float64`. -/
def Float64.mul : Float64 → Float64 → Float64
  | .finite a, .finite b => Float64.round (a * b)
  | .finite a, .inf s => if a = 0 then .nan else .inf (xor (decide (a < 0)) s)
  | .inf s, .finite b => if b = 0 then .nan else .inf (xor s (decide (b < 0)))
  | .inf s, .inf t => .inf (xor s t)
  | .nan, _ => .nan
  | _, .nan => .nan

/-- The operator `/` of `float64`; a zero divisor counts as `+0`. -/
def Float64.div : Float64 → Float64 → Float64
  | .finite a, .finite b =>
    if b = 0 then (if a = 0 then .nan else .inf (decide (a < 0))) else Float64.round (a / b)
  | .finite _, .inf _ => .finite 0
  | .inf s, .finite b => .inf (xor s (decide (b < 0)))
  | .inf _, .inf _ => .nan
  | .nan, _ => .nan
  | _, .nan => .nan

/-- The operator `<` of `float64`: false whenever an operand is NaN. -/
def Float64.lt : Float64 → Float64 → Bool
  | .finite a, .finite b => decide (a < b)
  | .finite _, .inf s => !s
  | .inf s, .finite _ => s
  | .inf s, .inf t => s && !t
  | .nan, _ => false
  | _, .nan => false

instance : Add Float64 := ⟨Float64.add⟩

instance : Sub Float64 := ⟨Float64.sub⟩

instance : Mul Float64 := ⟨Float64.mul⟩

instance : Div Float64 := ⟨Float64.div⟩

instance : LT Float64 := ⟨fun a b => Float64.lt a b = true⟩

instance (a b : Float64) : Decidable (a < b) :=
  inferInstanceAs (Decidable (Float64.lt a b = true))

/-- A decimal constant of the source text, converted to `float64`. -/
instance : OfScientific Float64 :=
  ⟨fun mantissa exponentSign decimalExponent =>
    Float64.round (Rat.ofScientific mantissa exponentSign decimalExponent)⟩

/-- An integer constant of the source text, converted to `float64`. -/
instance (n : ℕ) : OfNat Float64 n := ⟨Float64.round n⟩

namespace IEEE

/-- The struct `MainData` with its `float64` field. -/
structure MainData where
  Temp : Float64
  deriving DecidableEq

/-- The struct `WeatherResponse`. -/
structure WeatherResponse where
  Main : MainData
  Weather : List WeatherData
  deriving DecidableEq

/-- The Go zero value `WeatherResponse{}`. -/
def WeatherResponse.zero : WeatherResponse :=
  { Main := { Temp := .finite 0 }, Weather := [] }

/-- The function `getWeatherCondition`. -/
def getWeatherCondition (resp : WeatherResponse) : String :=
  if resp.Weather.length > 0 then
    match resp.Weather with
    | w :: _ => w.Description
    | [] => ""
  else
    ""

/-- The function `getTemperatureCelsius`, in `float64`. -/
def getTemperatureCelsius (resp : WeatherResponse) : Float64 :=
  resp.Main.Temp - 273.15

/-- The function `getTemperatureCategory`, in `float64`. -/
def getTemperatureCategory (tempCelsius : Float64) : String :=
  if tempCelsius < 5 then
    "cold"
  else if tempCelsius > 25 then
    "hot"
  else
    "moderate"

/-- The function `celsiusToFahrenheit`, in `float64`: `((celsius*9)/5) + 32`. -/
def celsiusToFahrenheit (celsius : Float64) : Float64 :=
  celsius * 9 / 5 + 32

/-- The verb `%.2f` on a `float64`. -/
def formatFixed2 : Float64 → String
  | .finite q => WeatherServer.formatFixed2 q
  | .inf false => "+Inf"
  | .inf true => "-Inf"
  | .nan => "NaN"

/-- The outside world of the provider client, decoding into `float64`. -/
structure World where
  httpGet : String → Except GoError HttpResponse
  jsonUnmarshal : String → WeatherResponse → WeatherResponse × Option GoError

/-- The result of `fetchWeatherData`. -/
structure FetchResult where
  resp : WeatherResponse
  err : Option GoError
  requested : List String

/-- The function `fetchWeatherData`. -/
def fetchWeatherData (world : World) (lat long : String) : FetchResult :=
  let url := apiURL lat long
  match world.httpGet url with
  | .error err =>
    { resp := WeatherResponse.zero,
      err := some ("failed to fetch weather data: " ++ err),
      requested := [url] }
  | .ok resp =>
    match resp.Body with
    | .error err =>
      { resp := WeatherResponse.zero,
        err := some ("failed to read response body: " ++ err),
        requested := [url] }
    | .ok body =>
      match world.jsonUnmarshal body WeatherResponse.zero with
      | (_, some err) =>
        { resp := WeatherResponse.zero,
          err := some ("failed to decode weather data: " ++ err),
          requested := [url] }
      | (weatherResp, none) =>
        { resp := weatherResp, err := none, requested := [url] }

/-- The text built by `fmt.Sprintf` for the success body. -/
def responseText (weatherCondition : String) (tempCelsius tempFahrenheit : Float64)
    (temperature : String) : String :=
  "Weather condition: " ++ weatherCondition ++ "\nTemperature: " ++ formatFixed2 tempCelsius ++
    "ºC (" ++ formatFixed2 tempFahrenheit ++ "ºF) (" ++ temperature ++ ")"

/-- The function `weatherHandler`. -/
def weatherHandler (world : World) (r : Request) : Handled :=
  let lat := r.query.Get "lat"
  let long := r.query.Get "long"
  let log0 := ["Latitude: " ++ lat ++ ", Longitude: " ++ long]
  if lat = "" ∨ long = "" then
    { response := httpError "Latitude and longitude are required" StatusBadRequest,
      requested := [],
      logs := log0 }
  else
    let fetched := fetchWeatherData world lat long
    match fetched.err with
    | some err =>
      { response := httpError err StatusInternalServerError,
        requested := fetched.requested,
        logs := log0 }
    | none =>
      let weatherResp := fetched.resp
      let weatherCondition := getWeatherCondition weatherResp
      let tempCelsius := getTemperatureCelsius weatherResp
      let tempFahrenheit := celsiusToFahrenheit tempCelsius
      let temperature := getTemperatureCategory tempCelsius
      let response := responseText weatherCondition tempCelsius tempFahrenheit temperature
      { response :=
          { header := headerSet [] "Content-Type" "text/plain",
            status := StatusOK,
            body := response ++ "\n" },
        requested := fetched.requested,
        logs := log0 ++
          ["Weather Condition: " ++ weatherCondition ++ "\n",
           "Temperature in Celsius: " ++ formatFixed2 tempCelsius ++ "\n",
           "Temperature in Fahrenheit: " ++ formatFixed2 tempFahrenheit ++ "\n"] }

/-- A world whose provider sends the body `payload`, which `json.Unmarshal` decodes to
the temperature `temp` and an empty condition list. -/
def worldSending (payload : String) (temp : Float64) : World :=
  { httpGet := fun _ => .ok { StatusCode := 200, Body := .ok payload },
    jsonUnmarshal := fun body v =>
      if body = payload then ({ Main := { Temp := temp }, Weather := [] }, none)
      else (v, some "unexpected end of JSON input") }

/-- The provider sends 280 K. -/
def world280 : World :=
  worldSending "\x7b\"main\":\x7b\"temp\":280\x7d,\"weather\":[]\x7d" (.finite 280)

/-- The provider sends 1e22 K. -/
def world1e22 : World :=
  worldSending "\x7b\"main\":\x7b\"temp\":1e22\x7d,\"weather\":[]\x7d" (.finite (10 ^ 22))

end IEEE

/-! # Theorems -/

/-! ## Lemmas about the handler's three exits -/

/-- When `http.Get` fails, the result is the zero value with the request error. -/
theorem fetchWeatherData_get_error (world : World) (lat long : String) (e : GoError)
    (hg : world.httpGet (apiURL lat long) = .error e) :
    fetchWeatherData world lat long =
      { resp := WeatherResponse.zero, err := some ("failed to fetch weather data: " ++ e),
        requested := [apiURL lat long] } := by
  simp only [fetchWeatherData, hg]

/-- When the body cannot be read, the result is the zero value with the read error. -/
theorem fetchWeatherData_read_error (world : World) (lat long : String) (resp : HttpResponse)
    (e : GoError) (hg : world.httpGet (apiURL lat long) = .ok resp) (hb : resp.Body = .error e) :
    fetchWeatherData world lat long =
      { resp := WeatherResponse.zero, err := some ("failed to read response body: " ++ e),
        requested := [apiURL lat long] } := by
  simp only [fetchWeatherData, hg, hb]

/-- When `json.Unmarshal` reports an error, the result is the zero value with the decode error. -/
theorem fetchWeatherData_decode_error (world : World) (lat long : String) (resp : HttpResponse)
    (body : String) (v : WeatherResponse) (e : GoError)
    (hg : world.httpGet (apiURL lat long) = .ok resp) (hb : resp.Body = .ok body)
    (hu : world.jsonUnmarshal body WeatherResponse.zero = (v, some e)) :
    fetchWeatherData world lat long =
      { resp := WeatherResponse.zero, err := some ("failed to decode weather data: " ++ e),
        requested := [apiURL lat long] } := by
  simp only [fetchWeatherData, hg, hb, hu]

/-- When nothing fails, the result is the decoded value and no error. -/
theorem fetchWeatherData_decoded (world : World) (lat long : String) (resp : HttpResponse)
    (body : String) (v : WeatherResponse)
    (hg : world.httpGet (apiURL lat long) = .ok resp) (hb : resp.Body = .ok body)
    (hu : world.jsonUnmarshal body WeatherResponse.zero = (v, none)) :
    fetchWeatherData world lat long =
      { resp := v, err := none, requested := [apiURL lat long] } := by
  simp only [fetchWeatherData, hg, hb, hu]

/-- Every call of `fetchWeatherData` requests exactly one URL, `apiURL lat long`. -/
theorem fetchWeatherData_requested (world : World) (lat long : String) :
    (fetchWeatherData world lat long).requested = [apiURL lat long] := by
  cases hg : world.httpGet (apiURL lat long) with
  | error e => rw [fetchWeatherData_get_error world lat long e hg]
  | ok resp =>
    cases hb : resp.Body with
    | error e => rw [fetchWeatherData_read_error world lat long resp e hg hb]
    | ok body =>
      rcases hu : world.jsonUnmarshal body WeatherResponse.zero with ⟨v, _ | e⟩
      · rw [fetchWeatherData_decoded world lat long resp body v hg hb hu]
      · rw [fetchWeatherData_decode_error world lat long resp body v e hg hb hu]

/-- The first exit of the handler: an empty `lat` or `long`. -/
theorem weatherHandler_missing (world : World) (r : Request)
    (h : r.query.Get "lat" = "" ∨ r.query.Get "long" = "") :
    weatherHandler world r =
      { response := httpError "Latitude and longitude are required" StatusBadRequest,
        requested := [],
        logs := ["Latitude: " ++ r.query.Get "lat" ++ ", Longitude: " ++ r.query.Get "long"] } := by
  simp only [weatherHandler, if_pos h]

/-- The second exit of the handler: the fetch returned an error. -/
theorem weatherHandler_failed (world : World) (r : Request) (e : GoError)
    (hlat : r.query.Get "lat" ≠ "") (hlong : r.query.Get "long" ≠ "")
    (he : (fetchWeatherData world (r.query.Get "lat") (r.query.Get "long")).err = some e) :
    (weatherHandler world r).response = httpError e StatusInternalServerError ∧
      (weatherHandler world r).requested = [apiURL (r.query.Get "lat") (r.query.Get "long")] := by
  have hn : ¬ (r.query.Get "lat" = "" ∨ r.query.Get "long" = "") := by
    rintro (h | h)
    · exact hlat h
    · exact hlong h
  simp only [weatherHandler, if_neg hn, he, fetchWeatherData_requested, and_self]

/-- The third exit of the handler: the fetch succeeded. -/
theorem weatherHandler_fetched (world : World) (r : Request)
    (hlat : r.query.Get "lat" ≠ "") (hlong : r.query.Get "long" ≠ "")
    (he : (fetchWeatherData world (r.query.Get "lat") (r.query.Get "long")).err = none) :
    (weatherHandler world r).response =
        { header := [("Content-Type", "text/plain")],
          status := 200,
          body :=
            responseText
              (getWeatherCondition
                (fetchWeatherData world (r.query.Get "lat") (r.query.Get "long")).resp)
              (getTemperatureCelsius
                (fetchWeatherData world (r.query.Get "lat") (r.query.Get "long")).resp)
              (celsiusToFahrenheit (getTemperatureCelsius
                (fetchWeatherData world (r.query.Get "lat") (r.query.Get "long")).resp))
              (getTemperatureCategory (getTemperatureCelsius
                (fetchWeatherData world (r.query.Get "lat") (r.query.Get "long")).resp))
              ++ "\n" } ∧
      (weatherHandler world r).requested = [apiURL (r.query.Get "lat") (r.query.Get "long")] := by
  have hn : ¬ (r.query.Get "lat" = "" ∨ r.query.Get "long" = "") := by
    rintro (h | h)
    · exact hlat h
    · exact hlong h
  simp only [weatherHandler, if_neg hn, he, fetchWeatherData_requested, and_self, headerSet,
    StatusOK, List.filter_nil]

/-- A key without values has the empty string as its `Get`. -/
theorem Values.Get_of_lookup_nil (v : Values) (key : String) (h : v.lookup key = []) :
    v.Get key = "" := by
  simp [Values.Get, h]

/-! ## C1: missing coordinate -/

/-- C1. When `lat` is absent or empty, or `long` is absent or empty, the handler
answers 400 with the body "Latitude and longitude are required" and a newline, and
requests nothing from the provider, whatever the world. -/
theorem weatherHandler_missing_parameter (world : World) (r : Request)
    (h : (r.query.lookup "lat" = [] ∨ r.query.Get "lat" = "") ∨
      (r.query.lookup "long" = [] ∨ r.query.Get "long" = "")) :
    (weatherHandler world r).response.status = 400 ∧
      (weatherHandler world r).response.body = "Latitude and longitude are required\n" ∧
      (weatherHandler world r).requested = [] := by
  have h' : r.query.Get "lat" = "" ∨ r.query.Get "long" = "" := by
    rcases h with (h | h) | (h | h)
    · exact Or.inl (Values.Get_of_lookup_nil _ _ h)
    · exact Or.inl h
    · exact Or.inr (Values.Get_of_lookup_nil _ _ h)
    · exact Or.inr h
  rw [weatherHandler_missing world r h']
  exact ⟨rfl, rfl, rfl⟩

/-- C1, at the request `?lat=10` answered in a world whose provider would succeed. -/
theorem weatherHandler_missing_parameter_witness :
    (weatherHandler exampleWorld requestWithoutLong).response.status = 400 ∧
      (weatherHandler exampleWorld requestWithoutLong).response.body =
        "Latitude and longitude are required\n" ∧
      (weatherHandler exampleWorld requestWithoutLong).requested = [] :=
  weatherHandler_missing_parameter exampleWorld requestWithoutLong (Or.inr (Or.inl rfl))

/-! ## C2: provider failure -/

/-- C2 as stated fails: with `http.Get` failing, the fetch error is
"failed to fetch weather data: dial tcp: connection refused", the status is 500, and
the body is not that description: `http.Error` prints it with a newline. -/
theorem weatherHandler_error_body_not_bare :
    (fetchWeatherData unreachableWorld (exampleRequest.query.Get "lat")
        (exampleRequest.query.Get "long")).err =
      some "failed to fetch weather data: dial tcp: connection refused" ∧
    (weatherHandler unreachableWorld exampleRequest).response.status = 500 ∧
    (weatherHandler unreachableWorld exampleRequest).response.body ≠
      "failed to fetch weather data: dial tcp: connection refused" ∧
    (weatherHandler unreachableWorld exampleRequest).response.body =
      "failed to fetch weather data: dial tcp: connection refused\n" := by
  decide

/-- C2, amended. When `lat` and `long` are non-empty and `fetchWeatherData` returns the
error `e`, the handler answers 500, Content-Type `text/plain; charset=utf-8`, and the
whole body is the description of `e` followed by one newline. -/
theorem weatherHandler_provider_error (world : World) (r : Request) (e : GoError)
    (hlat : r.query.Get "lat" ≠ "") (hlong : r.query.Get "long" ≠ "")
    (he : (fetchWeatherData world (r.query.Get "lat") (r.query.Get "long")).err = some e) :
    (weatherHandler world r).response.status = 500 ∧
      headerGet (weatherHandler world r).response.header "Content-Type" =
        "text/plain; charset=utf-8" ∧
      (weatherHandler world r).response.body = e ++ "\n" := by
  rw [(weatherHandler_failed world r e hlat hlong he).1]
  exact ⟨rfl, by simp [httpError, headerSet, headerGet], rfl⟩

/-- C2 amended, at `?lat=10&long=20` in the world where `http.Get` fails. -/
theorem weatherHandler_provider_error_witness :
    (weatherHandler unreachableWorld exampleRequest).response.status = 500 ∧
      headerGet (weatherHandler unreachableWorld exampleRequest).response.header "Content-Type" =
        "text/plain; charset=utf-8" ∧
      (weatherHandler unreachableWorld exampleRequest).response.body =
        "failed to fetch weather data: dial tcp: connection refused" ++ "\n" :=
  weatherHandler_provider_error unreachableWorld exampleRequest
    "failed to fetch weather data: dial tcp: connection refused" (by decide) (by decide)
    (by decide)

/-! ## C3: the temperature category -/

/-- C3. The category is "cold" exactly below 5, "hot" exactly above 25 and "moderate"
exactly in between; 5 and 25 are "moderate", 4.99 is "cold" and 25.01 is "hot". -/
theorem getTemperatureCategory_spec :
    (∀ c : ℚ, (getTemperatureCategory c = "cold" ↔ c < 5) ∧
      (getTemperatureCategory c = "hot" ↔ c > 25) ∧
      (getTemperatureCategory c = "moderate" ↔ ¬ c < 5 ∧ ¬ c > 25)) ∧
    getTemperatureCategory 5 = "moderate" ∧
    getTemperatureCategory 25 = "moderate" ∧
    getTemperatureCategory 4.99 = "cold" ∧
    getTemperatureCategory 25.01 = "hot" := by
  refine ⟨fun c => ?_, ?_, ?_, ?_, ?_⟩
  · unfold getTemperatureCategory
    by_cases h1 : c < 5
    · have h2 : ¬ c > 25 := by linarith
      simp [h1, h2]
    · by_cases h2 : c > 25
      · simp [h1, h2]
      · simp [h1, h2]
  all_goals norm_num [getTemperatureCategory]

/-! ## The rounding of `%.2f` -/

/-- The rounded number is within one half of the value. -/
theorem roundHalfEven_near (q : ℚ) (hq : 0 ≤ q) : |(roundHalfEven q : ℚ) - q| ≤ 1 / 2 := by
  have hdpos : 0 < q.den := q.den_pos
  have hd : (0 : ℚ) < (q.den : ℚ) := by exact_mod_cast hdpos
  have hn : 0 ≤ q.num := Rat.num_nonneg.mpr hq
  have hnum : ((q.num.toNat : ℕ) : ℚ) = (q.num : ℚ) := by
    have h : ((q.num.toNat : ℕ) : ℤ) = q.num := Int.toNat_of_nonneg hn
    exact_mod_cast h
  have hqd : q = ((q.num.toNat : ℕ) : ℚ) / (q.den : ℚ) := by
    rw [hnum]; exact (Rat.num_div_den q).symm
  have hdm : ((q.num.toNat : ℕ) : ℚ) =
      (q.den : ℚ) * ((q.num.toNat / q.den : ℕ) : ℚ) + ((q.num.toNat % q.den : ℕ) : ℚ) := by
    exact_mod_cast (Nat.div_add_mod q.num.toNat q.den).symm
  have hq' : q = ((q.num.toNat / q.den : ℕ) : ℚ) + ((q.num.toNat % q.den : ℕ) : ℚ) / (q.den : ℚ) := by
    conv_lhs => rw [hqd, hdm]
    field_simp
    ring
  have hr0 : (0 : ℚ) ≤ ((q.num.toNat % q.den : ℕ) : ℚ) := Nat.cast_nonneg _
  unfold roundHalfEven
  simp only []
  split_ifs with h1 h2 h3
  · have h1' : (2 : ℚ) * ((q.num.toNat % q.den : ℕ) : ℚ) < (q.den : ℚ) := by exact_mod_cast h1
    rw [abs_le]
    constructor
    · have : ((q.num.toNat % q.den : ℕ) : ℚ) / (q.den : ℚ) < 1 / 2 := by
        rw [div_lt_div_iff₀ hd (by norm_num)]; linarith
      linarith
    · have : 0 ≤ ((q.num.toNat % q.den : ℕ) : ℚ) / (q.den : ℚ) := div_nonneg hr0 hd.le
      linarith
  · have h2' : (q.den : ℚ) < (2 : ℚ) * ((q.num.toNat % q.den : ℕ) : ℚ) := by exact_mod_cast h2
    have hlt : ((q.num.toNat % q.den : ℕ) : ℚ) < (q.den : ℚ) := by
      exact_mod_cast Nat.mod_lt _ hdpos
    have ha : 1 / 2 < ((q.num.toNat % q.den : ℕ) : ℚ) / (q.den : ℚ) := by
      rw [div_lt_div_iff₀ (by norm_num) hd]; linarith
    have hb : ((q.num.toNat % q.den : ℕ) : ℚ) / (q.den : ℚ) < 1 := by
      rw [div_lt_one hd]; exact hlt
    rw [abs_le]
    push_cast
    constructor <;> linarith
  · have he : (2 : ℚ) * ((q.num.toNat % q.den : ℕ) : ℚ) = (q.den : ℚ) := by
      have : 2 * (q.num.toNat % q.den) = q.den := by omega
      exact_mod_cast this
    have ha : ((q.num.toNat % q.den : ℕ) : ℚ) / (q.den : ℚ) = 1 / 2 := by
      rw [div_eq_div_iff hd.ne' (by norm_num)]; linarith
    rw [abs_le]
    constructor <;> linarith
  · have he : (2 : ℚ) * ((q.num.toNat % q.den : ℕ) : ℚ) = (q.den : ℚ) := by
      have : 2 * (q.num.toNat % q.den) = q.den := by omega
      exact_mod_cast this
    have ha : ((q.num.toNat % q.den : ℕ) : ℚ) / (q.den : ℚ) = 1 / 2 := by
      rw [div_eq_div_iff hd.ne' (by norm_num)]; linarith
    rw [abs_le]
    push_cast
    constructor <;> linarith

/-- The numeral printed by `formatFixed2` is within half a hundredth of the value. -/
theorem hundredths_near (x : ℚ) :
    abs ((roundHalfEven (abs x * 100) : ℚ) / 100 - abs x) ≤ 1 / 200 := by
  have h := roundHalfEven_near (abs x * 100) (by positivity)
  rw [abs_le] at h ⊢
  constructor <;> linarith [h.1, h.2]

/-! ## C4: the two reported temperatures, in `float64` -/

/-- With enough fuel, `log2Fuel` brackets `n` between two powers of two. -/
theorem log2Fuel_spec (fuel n : ℕ) (hn : 0 < n) (hf : n < 2 ^ fuel) :
    2 ^ log2Fuel fuel n ≤ n ∧ n < 2 ^ (log2Fuel fuel n + 1) := by
  induction fuel generalizing n with
  | zero =>
    simp at hf
    omega
  | succ fuel ih =>
    unfold log2Fuel
    by_cases h2 : n < 2
    · simp only [if_pos h2]
      constructor
      · simpa using hn
      · simpa using h2
    · simp only [if_neg h2]
      have hhalf : 0 < n / 2 := by omega
      have hlt : n / 2 < 2 ^ fuel := by
        rw [pow_succ] at hf
        omega
      obtain ⟨h1, h3⟩ := ih (n / 2) hhalf hlt
      rw [pow_succ] at h3 ⊢
      rw [pow_succ]
      constructor <;> omega

/-- The number `natLog2 n` is the binary logarithm of a positive `n`, rounded down. -/
theorem natLog2_spec (n : ℕ) (hn : 0 < n) :
    2 ^ natLog2 n ≤ n ∧ n < 2 ^ (natLog2 n + 1) :=
  log2Fuel_spec n n hn (Nat.lt_two_pow n)

/-- The number `roundHalfEvenDiv n d` is within one half of `n / d`. -/
theorem roundHalfEvenDiv_near (n d : ℕ) (hd : 0 < d) :
    |(roundHalfEvenDiv n d : ℚ) - (n : ℚ) / (d : ℚ)| ≤ 1 / 2 := by
  have hdq : (0 : ℚ) < (d : ℚ) := by exact_mod_cast hd
  have hdm : (n : ℚ) = (d : ℚ) * ((n / d : ℕ) : ℚ) + ((n % d : ℕ) : ℚ) := by
    exact_mod_cast (Nat.div_add_mod n d).symm
  have hq : (n : ℚ) / (d : ℚ) = ((n / d : ℕ) : ℚ) + ((n % d : ℕ) : ℚ) / (d : ℚ) := by
    conv_lhs => rw [hdm]
    field_simp
    ring
  have hr0 : (0 : ℚ) ≤ ((n % d : ℕ) : ℚ) / (d : ℚ) := div_nonneg (Nat.cast_nonneg _) hdq.le
  rw [hq, abs_le]
  unfold roundHalfEvenDiv
  split_ifs with h1 h2 h3
  · have h1' : (2 : ℚ) * ((n % d : ℕ) : ℚ) < (d : ℚ) := by exact_mod_cast h1
    have : ((n % d : ℕ) : ℚ) / (d : ℚ) < 1 / 2 := by
      rw [div_lt_div_iff₀ hdq (by norm_num)]; linarith
    constructor <;> linarith
  · have h2' : (d : ℚ) < (2 : ℚ) * ((n % d : ℕ) : ℚ) := by exact_mod_cast h2
    have hlt : ((n % d : ℕ) : ℚ) < (d : ℚ) := by exact_mod_cast Nat.mod_lt _ hd
    have ha : 1 / 2 < ((n % d : ℕ) : ℚ) / (d : ℚ) := by
      rw [div_lt_div_iff₀ (by norm_num) hdq]; linarith
    have hb : ((n % d : ℕ) : ℚ) / (d : ℚ) < 1 := by
      rw [div_lt_one hdq]; exact hlt
    push_cast
    constructor <;> linarith
  · have he : (2 : ℚ) * ((n % d : ℕ) : ℚ) = (d : ℚ) := by
      have : 2 * (n % d) = d := by omega
      exact_mod_cast this
    have ha : ((n % d : ℕ) : ℚ) / (d : ℚ) = 1 / 2 := by
      rw [div_eq_div_iff hdq.ne' (by norm_num)]; linarith
    constructor <;> linarith
  · have he : (2 : ℚ) * ((n % d : ℕ) : ℚ) = (d : ℚ) := by
      have : 2 * (n % d) = d := by omega
      exact_mod_cast this
    have ha : ((n % d : ℕ) : ℚ) / (d : ℚ) = 1 / 2 := by
      rw [div_eq_div_iff hdq.ne' (by norm_num)]; linarith
    push_cast
    constructor <;> linarith

/-- The power `2 ^ floorLog2 n d` is at most `n / d`. -/
theorem floorLog2_le (n d : ℕ) (hn : 0 < n) (hd : 0 < d) :
    (2 : ℚ) ^ floorLog2 n d ≤ (n : ℚ) / (d : ℚ) := by
  have hdq : (0 : ℚ) < (d : ℚ) := by exact_mod_cast hd
  have h2 : (2 : ℚ) ≠ 0 := two_ne_zero
  obtain ⟨hn1, -⟩ := natLog2_spec n hn
  obtain ⟨-, hd2⟩ := natLog2_spec d hd
  unfold floorLog2
  split_ifs with h
  · rw [zpow_sub₀ h2, zpow_natCast, zpow_natCast, div_le_div_iff₀ (by positivity) hdq]
    exact_mod_cast h
  · have he : (natLog2 n : ℤ) - (natLog2 d : ℤ) - 1 =
        (natLog2 n : ℤ) - ((natLog2 d + 1 : ℕ) : ℤ) := by
      push_cast
      ring
    rw [he, zpow_sub₀ h2, zpow_natCast, zpow_natCast, div_le_div_iff₀ (by positivity) hdq]
    have : 2 ^ natLog2 n * d ≤ n * 2 ^ (natLog2 d + 1) :=
      Nat.mul_le_mul hn1 hd2.le
    exact_mod_cast this

/-- The quotient `n / d` is below `2 ^ (floorLog2 n d + 1)`. -/
theorem floorLog2_lt (n d : ℕ) (hn : 0 < n) (hd : 0 < d) :
    (n : ℚ) / (d : ℚ) < (2 : ℚ) ^ (floorLog2 n d + 1) := by
  have hdq : (0 : ℚ) < (d : ℚ) := by exact_mod_cast hd
  have h2 : (2 : ℚ) ≠ 0 := two_ne_zero
  obtain ⟨-, hn2⟩ := natLog2_spec n hn
  obtain ⟨hd1, -⟩ := natLog2_spec d hd
  unfold floorLog2
  split_ifs with h
  · have he : (natLog2 n : ℤ) - (natLog2 d : ℤ) + 1 =
        ((natLog2 n + 1 : ℕ) : ℤ) - (natLog2 d : ℤ) := by
      push_cast
      ring
    rw [he, zpow_sub₀ h2, zpow_natCast, zpow_natCast, div_lt_div_iff₀ hdq (by positivity)]
    have : n * 2 ^ natLog2 d < 2 ^ (natLog2 n + 1) * d :=
      Nat.mul_lt_mul_of_lt_of_le hn2 hd1 (by positivity)
    exact_mod_cast this
  · have he : (natLog2 n : ℤ) - (natLog2 d : ℤ) - 1 + 1 =
        (natLog2 n : ℤ) - (natLog2 d : ℤ) := by
      ring
    rw [he, zpow_sub₀ h2, zpow_natCast, zpow_natCast, div_lt_div_iff₀ hdq (by positivity)]
    have : n * 2 ^ natLog2 d < 2 ^ natLog2 n * d := not_le.mp h
    exact_mod_cast this

/-- The number `roundHalfEvenDiv n d` is at most one above the quotient. -/
theorem roundHalfEvenDiv_le (n d : ℕ) : roundHalfEvenDiv n d ≤ n / d + 1 := by
  unfold roundHalfEvenDiv
  split_ifs <;> omega

/-- The shape of a finite value of `Float64.round`: `m` units of `2 ^ E` with
`m ≤ 2 ^ 53` and `E ≥ -1074`, at most half a unit from the number, where the unit is at
most `|q| / 2 ^ 52` unless `E = -1074`. -/
theorem Float64.round_finite (q x : ℚ) (h : Float64.round q = .finite x) :
    ∃ (m : ℕ) (E : ℤ), -1074 ≤ E ∧ m ≤ 2 ^ 53 ∧ abs x = (m : ℚ) * (2 : ℚ) ^ E ∧
      abs (x - q) ≤ (2 : ℚ) ^ E / 2 ∧ ((2 : ℚ) ^ E * 2 ^ 52 ≤ abs q ∨ E = -1074) := by
  unfold Float64.round at h
  by_cases hn0 : q.num.natAbs = 0
  · rw [if_pos hn0] at h
    have hq : q = 0 := by
      have : q.num = 0 := Int.natAbs_eq_zero.mp hn0
      exact Rat.zero_of_num_zero this
    have hx : x = 0 := by
      injection h with h
      exact h.symm
    refine ⟨0, -1074, le_refl _, Nat.zero_le _, ?_, ?_, Or.inr rfl⟩
    · simp [hx]
    · rw [hx, hq]
      simp only [sub_zero, abs_zero]
      positivity
  · rw [if_neg hn0] at h
    simp only [] at h
    have hn : 0 < q.num.natAbs := Nat.pos_of_ne_zero hn0
    have hd : 0 < q.den := q.den_pos
    have habs : abs q = (q.num.natAbs : ℚ) / (q.den : ℚ) := by
      conv_lhs => rw [← Rat.num_div_den q]
      rw [abs_div, Nat.cast_natAbs, Int.cast_abs]
      congr 1
      exact abs_of_pos (by exact_mod_cast hd)
    have hfl := floorLog2_le q.num.natAbs q.den hn hd
    have hfu := floorLog2_lt q.num.natAbs q.den hn hd
    rw [← habs] at hfl hfu
    generalize floorLog2 q.num.natAbs q.den = e at h hfl hfu
    have hE : -1074 ≤ max e (-1022) - 52 := by
      have := le_max_right e (-1022)
      omega
    have hU : ((2 ^ (max e (-1022) - 52).toNat : ℕ) : ℚ) /
        ((2 ^ (52 - max e (-1022)).toNat : ℕ) : ℚ) = (2 : ℚ) ^ (max e (-1022) - 52) := by
      have hz : max e (-1022) - 52 =
          (((max e (-1022) - 52).toNat : ℕ) : ℤ) - (((52 - max e (-1022)).toNat : ℕ) : ℤ) := by
        omega
      conv_rhs => rw [hz]
      rw [zpow_sub₀ two_ne_zero, zpow_natCast, zpow_natCast]
      push_cast
      rfl
    have hcase : (2 : ℚ) ^ (max e (-1022) - 52) * 2 ^ 52 ≤ abs q ∨
        max e (-1022) - 52 = -1074 := by
      rcases le_or_lt (-1022) e with he | he
      · left
        rw [max_eq_left he, ← zpow_natCast (2 : ℚ) 52, ← zpow_add₀ two_ne_zero]
        simpa using hfl
      · right
        rw [max_eq_right he.le]
        norm_num
    have hbelow : abs q < (2 : ℚ) ^ (max e (-1022) - 52) * 2 ^ 53 := by
      have h1 : (2 : ℚ) ^ (e + 1) ≤ (2 : ℚ) ^ (max e (-1022) + 1) :=
        zpow_le_zpow_right₀ (by norm_num) (by have := le_max_left e (-1022); omega)
      have h2 : (2 : ℚ) ^ (max e (-1022) - 52) * 2 ^ 53 = (2 : ℚ) ^ (max e (-1022) + 1) := by
        rw [← zpow_natCast (2 : ℚ) 53, ← zpow_add₀ two_ne_zero]
        congr 1
        push_cast
        ring
      rw [h2]
      exact lt_of_lt_of_le hfu h1
    have hUpos : (0 : ℚ) < (2 : ℚ) ^ (max e (-1022) - 52) := by positivity
    generalize max e (-1022) - 52 = E at h hU hcase hUpos hE hbelow
    generalize hup : (52 - max e (-1022)).toNat = up at h hU
    generalize hdown : (E).toNat = down at h hU
    have hDpos : 0 < q.den * 2 ^ down := by positivity
    have hnear := roundHalfEvenDiv_near (q.num.natAbs * 2 ^ up) (q.den * 2 ^ down) hDpos
    have hle := roundHalfEvenDiv_le (q.num.natAbs * 2 ^ up) (q.den * 2 ^ down)
    have hunits : ((q.num.natAbs * 2 ^ up : ℕ) : ℚ) / ((q.den * 2 ^ down : ℕ) : ℚ) =
        abs q / (2 : ℚ) ^ E := by
      rw [← hU, habs]
      push_cast
      field_simp
    have hquot : q.num.natAbs * 2 ^ up / (q.den * 2 ^ down) < 2 ^ 53 := by
      rw [Nat.div_lt_iff_lt_mul hDpos]
      have h1 : ((q.num.natAbs * 2 ^ up : ℕ) : ℚ) / ((q.den * 2 ^ down : ℕ) : ℚ) < 2 ^ 53 := by
        rw [hunits, div_lt_iff₀ hUpos]
        linarith
      rw [div_lt_iff₀ (by exact_mod_cast hDpos)] at h1
      exact_mod_cast h1
    generalize roundHalfEvenDiv (q.num.natAbs * 2 ^ up) (q.den * 2 ^ down) = m at h hnear hle
    have hmag : ((m * 2 ^ down : ℕ) : ℚ) / ((2 ^ up : ℕ) : ℚ) = (m : ℚ) * (2 : ℚ) ^ E := by
      rw [← hU]
      push_cast
      ring
    rw [hmag] at h
    rw [hunits] at hnear
    have hdist : abs ((m : ℚ) * (2 : ℚ) ^ E - abs q) ≤ (2 : ℚ) ^ E / 2 := by
      have h1 : (m : ℚ) * (2 : ℚ) ^ E - abs q = ((m : ℚ) - abs q / (2 : ℚ) ^ E) * (2 : ℚ) ^ E := by
        field_simp
      rw [h1, abs_mul, abs_of_pos hUpos]
      calc abs ((m : ℚ) - abs q / (2 : ℚ) ^ E) * (2 : ℚ) ^ E ≤ 1 / 2 * (2 : ℚ) ^ E :=
            mul_le_mul_of_nonneg_right hnear hUpos.le
        _ = (2 : ℚ) ^ E / 2 := by ring
    have hmU : (0 : ℚ) ≤ (m : ℚ) * (2 : ℚ) ^ E := by positivity
    have hx : abs x = (m : ℚ) * (2 : ℚ) ^ E ∧
        abs (x - q) = abs ((m : ℚ) * (2 : ℚ) ^ E - abs q) := by
      split_ifs at h with hover hneg
      · have hx : x = -((m : ℚ) * (2 : ℚ) ^ E) := by
          injection h with h
          exact h.symm
        constructor
        · rw [hx, abs_neg, abs_of_nonneg hmU]
        · rw [hx, abs_of_neg hneg, ← abs_neg]
          congr 1
          ring
      · have hx : x = (m : ℚ) * (2 : ℚ) ^ E := by
          injection h with h
          exact h.symm
        constructor
        · rw [hx, abs_of_nonneg hmU]
        · rw [hx, abs_of_nonneg (not_lt.mp hneg)]
    refine ⟨m, E, hE, by omega, hx.1, ?_, hcase⟩
    rw [hx.2]
    exact hdist

/-- The value of `Float64.round`, when finite, is within relative error `2 ^ (-53)` of the
number, or within `2 ^ (-1075)` of it. -/
theorem Float64.round_near (q x : ℚ) (h : Float64.round q = .finite x) :
    abs (x - q) * 2 ^ 53 ≤ abs q ∨ abs (x - q) * 2 ^ 1075 ≤ 1 := by
  obtain ⟨m, E, -, -, -, hdist, hcase⟩ := Float64.round_finite q x h
  rcases hcase with hc | hc
  · left
    calc abs (x - q) * 2 ^ 53 ≤ (2 : ℚ) ^ E / 2 * 2 ^ 53 :=
          mul_le_mul_of_nonneg_right hdist (by positivity)
      _ = (2 : ℚ) ^ E * 2 ^ 52 := by ring
      _ ≤ abs q := hc
  · right
    rw [hc] at hdist
    calc abs (x - q) * 2 ^ 1075 ≤ (2 : ℚ) ^ (-1074 : ℤ) / 2 * 2 ^ 1075 :=
          mul_le_mul_of_nonneg_right hdist (by positivity)
      _ = 1 := by
          rw [zpow_neg, ← zpow_natCast (2 : ℚ) 1075]
          norm_num

/-- The constant `273.15` of the source is the `float64` 2402652809016115 / 2 ^ 43. -/
theorem float64_273_15 : (273.15 : Float64) = .finite (2402652809016115 / 8796093022208) := by
  decide!

/-- The constants `9`, `5` and `32` of the source are exact in `float64`. -/
theorem float64_constants :
    (9 : Float64) = .finite 9 ∧ (5 : Float64) = .finite 5 ∧ (32 : Float64) = .finite 32 := by
  decide!

/-- The third exit of the handler in `float64`: the fetch succeeded. -/
theorem weatherHandler_fetched_float64 (world : IEEE.World) (r : Request)
    (hlat : r.query.Get "lat" ≠ "") (hlong : r.query.Get "long" ≠ "")
    (he : (IEEE.fetchWeatherData world (r.query.Get "lat") (r.query.Get "long")).err = none) :
    (IEEE.weatherHandler world r).response =
        { header := [("Content-Type", "text/plain")],
          status := 200,
          body :=
            IEEE.responseText
              (IEEE.getWeatherCondition
                (IEEE.fetchWeatherData world (r.query.Get "lat") (r.query.Get "long")).resp)
              (IEEE.getTemperatureCelsius
                (IEEE.fetchWeatherData world (r.query.Get "lat") (r.query.Get "long")).resp)
              (IEEE.celsiusToFahrenheit (IEEE.getTemperatureCelsius
                (IEEE.fetchWeatherData world (r.query.Get "lat") (r.query.Get "long")).resp))
              (IEEE.getTemperatureCategory (IEEE.getTemperatureCelsius
                (IEEE.fetchWeatherData world (r.query.Get "lat") (r.query.Get "long")).resp))
              ++ "\n" } := by
  have hn : ¬ (r.query.Get "lat" = "" ∨ r.query.Get "long" = "") := by
    rintro (h | h)
    · exact hlat h
    · exact hlong h
  simp only [IEEE.weatherHandler, if_neg hn, he, headerSet, StatusOK, List.filter_nil]

/-- C4 as stated fails. With `main.temp = 280` the code's Celsius value is the `float64`
60253237202125 / 2 ^ 43 (6.850000000000023), not 280 - 273.15; with `main.temp = 1e22` the
subtraction changes nothing and the body shows 10000000000000000000000.00 where
1e22 - 273.15 to two places is 9999999999999999999726.85; with `main.temp = 1e308` the
Fahrenheit value is +Inf. -/
theorem temperatures_not_exact :
    IEEE.getTemperatureCelsius { Main := { Temp := .finite 280 }, Weather := [] } =
      .finite (60253237202125 / 8796093022208) ∧
    (60253237202125 / 8796093022208 : ℚ) ≠ 280 - 273.15 ∧
    (IEEE.weatherHandler IEEE.world1e22 exampleRequest).response.body =
      "Weather condition: \nTemperature: 10000000000000000000000.00ºC (18000000000000000000000.00ºF) (hot)\n" ∧
    formatFixed2 (10 ^ 22 - 273.15) = "9999999999999999999726.85" ∧
    formatFixed2 ((10 ^ 22 - 273.15) * 9 / 5 + 32) = "17999999999999999999540.33" ∧
    IEEE.celsiusToFahrenheit
      (IEEE.getTemperatureCelsius { Main := { Temp := .finite (10 ^ 308) }, Weather := [] }) =
      .inf false := by
  refine ⟨by decide!, by norm_num, by decide!, by decide!, by decide!, by decide!⟩

/-- C4, amended. In the `float64` arithmetic of the source: for a response with
`main.temp = K`, `getTemperatureCelsius` is the `float64` difference of `K` and the
constant 273.15 (the exact difference from 2402652809016115 / 2 ^ 43, rounded to the
nearest `float64`), within `|K - c| / 2 ^ 53 + 2 ^ (-1075) + 2 ^ (-45)` of `K - 273.15`;
`celsiusToFahrenheit` of `c` is `c * 9`, divided by 5, plus 32, each of the three steps
rounded (5 gives 41: the factor is not the integer quotient 1); every rounded result, when
finite, is within relative error `2 ^ (-53)` or absolute error `2 ^ (-1075)` of the exact
one and is `m * 2 ^ E` with `m ≤ 2 ^ 53` and `E ≥ -1074`; and on success the body shows exactly these two values through `%.2f`, whose numeral
for a finite value is within half a hundredth of it. -/
theorem temperatures_reported_float64 :
    (∀ resp : IEEE.WeatherResponse,
      IEEE.getTemperatureCelsius resp = resp.Main.Temp - 273.15 ∧
      IEEE.celsiusToFahrenheit (IEEE.getTemperatureCelsius resp) =
        (resp.Main.Temp - 273.15) * 9 / 5 + 32) ∧
    (∀ (K : ℚ) (conditions : List WeatherData),
      IEEE.getTemperatureCelsius { Main := { Temp := .finite K }, Weather := conditions } =
        Float64.round (K - 2402652809016115 / 8796093022208)) ∧
    (∀ (K x : ℚ) (conditions : List WeatherData),
      IEEE.getTemperatureCelsius { Main := { Temp := .finite K }, Weather := conditions } =
        .finite x →
      abs (x - (K - 273.15)) ≤
        abs (K - 2402652809016115 / 8796093022208) / 2 ^ 53 + 1 / 2 ^ 1075 + 1 / 2 ^ 45) ∧
    (∀ c : ℚ,
      IEEE.celsiusToFahrenheit (.finite c) =
        Float64.add (Float64.div (Float64.round (c * 9)) (.finite 5)) (.finite 32)) ∧
    IEEE.celsiusToFahrenheit (.finite 5) = .finite 41 ∧
    (∀ q x : ℚ, Float64.round q = .finite x →
      abs (x - q) * 2 ^ 53 ≤ abs q ∨ abs (x - q) * 2 ^ 1075 ≤ 1) ∧
    (∀ q x : ℚ, Float64.round q = .finite x →
      ∃ (m : ℕ) (E : ℤ), m ≤ 2 ^ 53 ∧ -1074 ≤ E ∧ abs x = (m : ℚ) * (2 : ℚ) ^ E) ∧
    (∀ (world : IEEE.World) (r : Request),
      r.query.Get "lat" ≠ "" → r.query.Get "long" ≠ "" →
      (IEEE.fetchWeatherData world (r.query.Get "lat") (r.query.Get "long")).err = none →
      ∃ K d cat,
        (IEEE.fetchWeatherData world (r.query.Get "lat") (r.query.Get "long")).resp.Main.Temp
          = K ∧
        (IEEE.weatherHandler world r).response.body =
          "Weather condition: " ++ d ++ "\nTemperature: " ++ IEEE.formatFixed2 (K - 273.15) ++
            "ºC (" ++ IEEE.formatFixed2 ((K - 273.15) * 9 / 5 + 32) ++ "ºF) (" ++ cat ++ ")" ++
            "\n") ∧
    (∀ x : ℚ,
      IEEE.formatFixed2 (.finite x) =
        (if x < 0 then "-" else "") ++ toString (roundHalfEven (abs x * 100) / 100) ++ "." ++
          twoDigits (roundHalfEven (abs x * 100) % 100) ∧
      abs ((roundHalfEven (abs x * 100) : ℚ) / 100 - abs x) ≤ 1 / 200) := by
  have hsub : ∀ (K : ℚ) (conditions : List WeatherData),
      IEEE.getTemperatureCelsius { Main := { Temp := .finite K }, Weather := conditions } =
        Float64.round (K - 2402652809016115 / 8796093022208) := by
    intro K conditions
    unfold IEEE.getTemperatureCelsius
    rw [float64_273_15]
    rfl
  refine ⟨fun resp => ⟨rfl, rfl⟩, hsub, fun K x conditions hx => ?_, fun c => ?_, by decide!,
    Float64.round_near, fun q x h => ?_, fun world r hlat hlong he => ?_,
    fun x => ⟨rfl, hundredths_near x⟩⟩
  · rw [hsub] at hx
    have hc : abs ((273.15 : ℚ) - 2402652809016115 / 8796093022208) ≤ 1 / 2 ^ 45 := by
      rw [abs_le]
      constructor <;> norm_num
    have hr : abs (x - (K - 2402652809016115 / 8796093022208)) ≤
        abs (K - 2402652809016115 / 8796093022208) / 2 ^ 53 + 1 / 2 ^ 1075 := by
      have h0 : (0 : ℚ) ≤ abs (K - 2402652809016115 / 8796093022208) / 2 ^ 53 := by positivity
      have h1 : (0 : ℚ) ≤ 1 / 2 ^ 1075 := by positivity
      rcases Float64.round_near _ _ hx with h | h
      · have : abs (x - (K - 2402652809016115 / 8796093022208)) ≤
            abs (K - 2402652809016115 / 8796093022208) / 2 ^ 53 := by
          rw [le_div_iff₀ (by positivity)]
          exact h
        linarith
      · have : abs (x - (K - 2402652809016115 / 8796093022208)) ≤ 1 / 2 ^ 1075 := by
          rw [le_div_iff₀ (by positivity)]
          exact h
        linarith
    have htri : abs (x - (K - 273.15)) ≤
        abs (x - (K - 2402652809016115 / 8796093022208)) +
          abs ((273.15 : ℚ) - 2402652809016115 / 8796093022208) := by
      have : x - (K - 273.15) = (x - (K - 2402652809016115 / 8796093022208)) +
          ((273.15 : ℚ) - 2402652809016115 / 8796093022208) := by ring
      rw [this]
      exact abs_add _ _
    linarith
  · unfold IEEE.celsiusToFahrenheit
    rw [float64_constants.1, float64_constants.2.1, float64_constants.2.2]
    rfl
  · obtain ⟨m, E, hE, hm, hx, -, -⟩ := Float64.round_finite q x h
    exact ⟨m, E, hm, hE, hx⟩
  · refine ⟨_,
      IEEE.getWeatherCondition
        (IEEE.fetchWeatherData world (r.query.Get "lat") (r.query.Get "long")).resp,
      IEEE.getTemperatureCategory (IEEE.getTemperatureCelsius
        (IEEE.fetchWeatherData world (r.query.Get "lat") (r.query.Get "long")).resp), rfl, ?_⟩
    rw [weatherHandler_fetched_float64 world r hlat hlong he]
    rfl

/-- C4 amended, at `?lat=10&long=20` with the provider sending 280 K: the Celsius value
is 60253237202125 / 2 ^ 43, within the bound of 6.85, and the body shows 6.85 and 44.33. -/
theorem temperatures_reported_float64_witness :
    abs ((60253237202125 / 8796093022208 : ℚ) - (280 - 273.15)) ≤
      abs ((280 : ℚ) - 2402652809016115 / 8796093022208) / 2 ^ 53 + 1 / 2 ^ 1075 + 1 / 2 ^ 45 ∧
    (abs ((60253237202125 / 8796093022208 : ℚ) - (280 - 2402652809016115 / 8796093022208)) *
        2 ^ 53 ≤ abs ((280 : ℚ) - 2402652809016115 / 8796093022208) ∨
      abs ((60253237202125 / 8796093022208 : ℚ) - (280 - 2402652809016115 / 8796093022208)) *
        2 ^ 1075 ≤ 1) ∧
    (∃ K d cat,
        (IEEE.fetchWeatherData IEEE.world280
          (exampleRequest.query.Get "lat") (exampleRequest.query.Get "long")).resp.Main.Temp
          = K ∧
        (IEEE.weatherHandler IEEE.world280 exampleRequest).response.body =
          "Weather condition: " ++ d ++ "\nTemperature: " ++ IEEE.formatFixed2 (K - 273.15) ++
            "ºC (" ++ IEEE.formatFixed2 ((K - 273.15) * 9 / 5 + 32) ++ "ºF) (" ++ cat ++ ")" ++
            "\n") ∧
    (IEEE.weatherHandler IEEE.world280 exampleRequest).response.body =
      "Weather condition: \nTemperature: 6.85ºC (44.33ºF) (moderate)\n" :=
  ⟨temperatures_reported_float64.2.2.1 280 (60253237202125 / 8796093022208) [] (by decide!),
    temperatures_reported_float64.2.2.2.2.2.1 _ _ (by decide!),
    temperatures_reported_float64.2.2.2.2.2.2.2.1 IEEE.world280
      exampleRequest (by decide) (by decide) (by decide),
    by decide!⟩


/-! ## C5: the success response -/

/-- C5. When `lat` and `long` are non-empty and `fetchWeatherData` succeeds, the handler
answers 200, Content-Type `text/plain`, and the body is
"Weather condition: d\nTemperature: cºC (fºF) (cat)" and one newline, with `d` the
condition, `c` and `f` the two temperatures through `%.2f` and `cat` the category of the
Celsius value; for the decoded example payload the body is the one of the specification. -/
theorem weatherHandler_success (world : World) (r : Request)
    (hlat : r.query.Get "lat" ≠ "") (hlong : r.query.Get "long" ≠ "")
    (he : (fetchWeatherData world (r.query.Get "lat") (r.query.Get "long")).err = none) :
    (weatherHandler world r).response.status = 200 ∧
    (weatherHandler world r).response.header = [("Content-Type", "text/plain")] ∧
    headerGet (weatherHandler world r).response.header "Content-Type" = "text/plain" ∧
    (weatherHandler world r).response.body =
      "Weather condition: " ++
        getWeatherCondition
          (fetchWeatherData world (r.query.Get "lat") (r.query.Get "long")).resp ++
        "\nTemperature: " ++
        formatFixed2 (getTemperatureCelsius
          (fetchWeatherData world (r.query.Get "lat") (r.query.Get "long")).resp) ++
        "ºC (" ++
        formatFixed2 (celsiusToFahrenheit (getTemperatureCelsius
          (fetchWeatherData world (r.query.Get "lat") (r.query.Get "long")).resp)) ++
        "ºF) (" ++
        getTemperatureCategory (getTemperatureCelsius
          (fetchWeatherData world (r.query.Get "lat") (r.query.Get "long")).resp) ++
        ")" ++ "\n" ∧
    ((fetchWeatherData world (r.query.Get "lat") (r.query.Get "long")).resp = exampleDecoded →
      (weatherHandler world r).response.body =
        "Weather condition: clear sky\nTemperature: 27.00ºC (80.60ºF) (hot)\n") := by
  rw [(weatherHandler_fetched world r hlat hlong he).1]
  refine ⟨rfl, rfl, by simp [headerGet], rfl, fun hx => ?_⟩
  simp only [hx]
  decide!

/-- C5 at the end-to-end example: the payload with 300.15 K and "clear sky", query
`lat=10&long=20`. -/
theorem weatherHandler_success_witness :
    exampleWorld.httpGet (apiURL "10" "20") =
      .ok { StatusCode := 200, Body := .ok examplePayload } ∧
    (weatherHandler exampleWorld exampleRequest).response.status = 200 ∧
    headerGet (weatherHandler exampleWorld exampleRequest).response.header "Content-Type" =
      "text/plain" ∧
    (weatherHandler exampleWorld exampleRequest).response.body =
      "Weather condition: clear sky\nTemperature: 27.00ºC (80.60ºF) (hot)\n" :=
  have h := weatherHandler_success exampleWorld exampleRequest (by decide) (by decide)
    (by decide)
  ⟨rfl, h.1, h.2.2.1, h.2.2.2.2 rfl⟩

/-! ## C6: the condition -/

/-- C6. `getWeatherCondition` is the description of the first condition, whatever
follows it, and the empty string for an empty list; with an empty list a successful
fetch still gives status 200, with the empty condition in the body. -/
theorem getWeatherCondition_spec :
    (∀ (main : MainData) (first : WeatherData) (rest : List WeatherData),
      getWeatherCondition { Main := main, Weather := first :: rest } = first.Description) ∧
    (∀ main : MainData, getWeatherCondition { Main := main, Weather := [] } = "") ∧
    (∀ (world : World) (r : Request),
      r.query.Get "lat" ≠ "" → r.query.Get "long" ≠ "" →
      (fetchWeatherData world (r.query.Get "lat") (r.query.Get "long")).err = none →
      (fetchWeatherData world (r.query.Get "lat") (r.query.Get "long")).resp.Weather = [] →
      (weatherHandler world r).response.status = 200 ∧
      ∃ rest, (weatherHandler world r).response.body =
        "Weather condition: " ++ "" ++ "\nTemperature: " ++ rest) := by
  refine ⟨fun main first rest => ?_, fun main => ?_, fun world r hlat hlong he hw => ?_⟩
  · simp [getWeatherCondition]
  · simp [getWeatherCondition]
  · rw [(weatherHandler_fetched world r hlat hlong he).1]
    refine ⟨rfl, ?_⟩
    have hc : getWeatherCondition
        (fetchWeatherData world (r.query.Get "lat") (r.query.Get "long")).resp = "" := by
      simp [getWeatherCondition, hw]
    simp only [responseText, hc, String.append_assoc]
    exact ⟨_, rfl⟩

/-- C6 at a two-element list, at the empty list, and at `?lat=10&long=20` with a
provider payload whose list is empty. -/
theorem getWeatherCondition_spec_witness :
    getWeatherCondition
      { Main := { Temp := 280 },
        Weather := [{ Description := "light rain" }, { Description := "mist" }] } =
      "light rain" ∧
    getWeatherCondition { Main := { Temp := 280 }, Weather := [] } = "" ∧
    (weatherHandler noConditionWorld exampleRequest).response.status = 200 ∧
    (weatherHandler noConditionWorld exampleRequest).response.body =
      "Weather condition: \nTemperature: 20.00ºC (68.00ºF) (moderate)\n" :=
  ⟨getWeatherCondition_spec.1 _ _ _, getWeatherCondition_spec.2.1 _,
    (getWeatherCondition_spec.2.2 noConditionWorld exampleRequest (by decide) (by decide)
      (by decide) (by decide)).1,
    by decide!⟩

/-! ## C7: a provider answer that is not 2xx -/

/-- C7 as stated fails: the provider answers 401 (not 2xx) with its error document,
the fetch reports no error, and the handler answers 200 with the temperatures of the
zero value, 0 K. -/
theorem weatherHandler_non2xx_answers_200 :
    unauthorizedWorld.httpGet (apiURL "10" "20") =
      .ok { StatusCode := 401,
            Body := .ok "\x7b\"cod\":401, \"message\": \"Invalid API key.\"\x7d" } ∧
    (fetchWeatherData unauthorizedWorld (exampleRequest.query.Get "lat")
      (exampleRequest.query.Get "long")).err = none ∧
    (weatherHandler unauthorizedWorld exampleRequest).response.status = 200 ∧
    (weatherHandler unauthorizedWorld exampleRequest).response.status ≠ 500 ∧
    (weatherHandler unauthorizedWorld exampleRequest).response.body =
      "Weather condition: \nTemperature: -273.15ºC (-459.67ºF) (cold)\n" := by
  refine ⟨rfl, rfl, rfl, by decide, by decide!⟩

/-- The fetch does not depend on the provider's status code. -/
theorem fetchWeatherData_withStatusCode (world : World) (code : ℕ) (lat long : String) :
    fetchWeatherData (world.withStatusCode code) lat long = fetchWeatherData world lat long := by
  cases hg : world.httpGet (apiURL lat long) with
  | error e => simp only [fetchWeatherData, World.withStatusCode, hg]
  | ok resp => simp only [fetchWeatherData, World.withStatusCode, hg]

/-- C7, amended. The provider's status code is not inspected. When `lat` and `long` are
non-empty and the provider answers (with any status code), the handler answers 500
exactly when the body cannot be read or is not decoded, and 200 exactly when the body is
read and decoded; the handler's result is the same under any other status code. -/
theorem weatherHandler_ignores_status_code (world : World) (r : Request) (resp : HttpResponse)
    (hlat : r.query.Get "lat" ≠ "") (hlong : r.query.Get "long" ≠ "")
    (hg : world.httpGet (apiURL (r.query.Get "lat") (r.query.Get "long")) = .ok resp) :
    ((weatherHandler world r).response.status = 500 ↔
      ((∃ e, resp.Body = .error e) ∨
        ∃ body v e, resp.Body = .ok body ∧
          world.jsonUnmarshal body WeatherResponse.zero = (v, some e))) ∧
    ((weatherHandler world r).response.status = 200 ↔
      ∃ body v, resp.Body = .ok body ∧
        world.jsonUnmarshal body WeatherResponse.zero = (v, none)) ∧
    (∀ code : ℕ, weatherHandler (world.withStatusCode code) r = weatherHandler world r) := by
  have hn : ¬ (r.query.Get "lat" = "" ∨ r.query.Get "long" = "") := by
    rintro (h | h)
    · exact hlat h
    · exact hlong h
  refine ⟨?_, ?_, fun code => ?_⟩
  · cases hb : resp.Body with
    | error e =>
      have hf := fetchWeatherData_read_error world _ _ resp e hg hb
      rw [(weatherHandler_failed world r _ hlat hlong (by rw [hf])).1]
      simp [httpError, StatusInternalServerError]
    | ok body =>
      rcases hu : world.jsonUnmarshal body WeatherResponse.zero with ⟨v, _ | e⟩
      · have hf := fetchWeatherData_decoded world _ _ resp body v hg hb hu
        rw [(weatherHandler_fetched world r hlat hlong (by rw [hf])).1]
        simp [hu]
      · have hf := fetchWeatherData_decode_error world _ _ resp body v e hg hb hu
        rw [(weatherHandler_failed world r _ hlat hlong (by rw [hf])).1]
        simp [httpError, StatusInternalServerError, hu]
  · cases hb : resp.Body with
    | error e =>
      have hf := fetchWeatherData_read_error world _ _ resp e hg hb
      rw [(weatherHandler_failed world r _ hlat hlong (by rw [hf])).1]
      simp [httpError, StatusInternalServerError]
    | ok body =>
      rcases hu : world.jsonUnmarshal body WeatherResponse.zero with ⟨v, _ | e⟩
      · have hf := fetchWeatherData_decoded world _ _ resp body v hg hb hu
        rw [(weatherHandler_fetched world r hlat hlong (by rw [hf])).1]
        simp [hu]
      · have hf := fetchWeatherData_decode_error world _ _ resp body v e hg hb hu
        rw [(weatherHandler_failed world r _ hlat hlong (by rw [hf])).1]
        simp [httpError, StatusInternalServerError, hu]
  · simp only [weatherHandler, fetchWeatherData_withStatusCode]

/-- C7 amended, at `?lat=10&long=20` with the provider answering 401: the status is 200,
as it is when the same body comes with status 200. -/
theorem weatherHandler_ignores_status_code_witness :
    (weatherHandler unauthorizedWorld exampleRequest).response.status = 200 ∧
    weatherHandler (unauthorizedWorld.withStatusCode 200) exampleRequest =
      weatherHandler unauthorizedWorld exampleRequest :=
  have h := weatherHandler_ignores_status_code unauthorizedWorld exampleRequest
    { StatusCode := 401,
      Body := .ok "\x7b\"cod\":401, \"message\": \"Invalid API key.\"\x7d" }
    (by decide) (by decide) rfl
  ⟨h.2.1.mpr ⟨_, _, rfl, rfl⟩, h.2.2 200⟩

/-! ## C8: the provider client -/

/-- C8. Whatever the world, `fetchWeatherData` returns: the request error when the GET
fails; else the read error when the body cannot be read; else the decode error when
`json.Unmarshal` reports one; else exactly the decoded structure and no error (nothing
of it is checked). With every error the structure returned is the zero value. -/
theorem fetchWeatherData_outcomes (world : World) (lat long : String) :
    (∀ e, world.httpGet (apiURL lat long) = .error e →
      (fetchWeatherData world lat long).err = some ("failed to fetch weather data: " ++ e) ∧
      (fetchWeatherData world lat long).resp = WeatherResponse.zero) ∧
    (∀ resp e, world.httpGet (apiURL lat long) = .ok resp → resp.Body = .error e →
      (fetchWeatherData world lat long).err = some ("failed to read response body: " ++ e) ∧
      (fetchWeatherData world lat long).resp = WeatherResponse.zero) ∧
    (∀ resp body v e, world.httpGet (apiURL lat long) = .ok resp → resp.Body = .ok body →
      world.jsonUnmarshal body WeatherResponse.zero = (v, some e) →
      (fetchWeatherData world lat long).err = some ("failed to decode weather data: " ++ e) ∧
      (fetchWeatherData world lat long).resp = WeatherResponse.zero) ∧
    (∀ resp body v, world.httpGet (apiURL lat long) = .ok resp → resp.Body = .ok body →
      world.jsonUnmarshal body WeatherResponse.zero = (v, none) →
      (fetchWeatherData world lat long).err = none ∧
      (fetchWeatherData world lat long).resp = v) ∧
    ((fetchWeatherData world lat long).err ≠ none →
      (fetchWeatherData world lat long).resp = WeatherResponse.zero) := by
  refine ⟨fun e hg => ?_, fun resp e hg hb => ?_, fun resp body v e hg hb hu => ?_,
    fun resp body v hg hb hu => ?_, fun hne => ?_⟩
  · rw [fetchWeatherData_get_error world lat long e hg]
    exact ⟨rfl, rfl⟩
  · rw [fetchWeatherData_read_error world lat long resp e hg hb]
    exact ⟨rfl, rfl⟩
  · rw [fetchWeatherData_decode_error world lat long resp body v e hg hb hu]
    exact ⟨rfl, rfl⟩
  · rw [fetchWeatherData_decoded world lat long resp body v hg hb hu]
    exact ⟨rfl, rfl⟩
  · cases hg : world.httpGet (apiURL lat long) with
    | error e => rw [fetchWeatherData_get_error world lat long e hg]
    | ok resp =>
      cases hb : resp.Body with
      | error e => rw [fetchWeatherData_read_error world lat long resp e hg hb]
      | ok body =>
        rcases hu : world.jsonUnmarshal body WeatherResponse.zero with ⟨v, _ | e⟩
        · rw [fetchWeatherData_decoded world lat long resp body v hg hb hu] at hne
          exact absurd rfl hne
        · rw [fetchWeatherData_decode_error world lat long resp body v e hg hb hu]

/-- C8 in four worlds: the GET fails; the body breaks off; the decoder reports a type
error after storing 280 K (the zero value is returned all the same); the payload has an
empty condition list (returned as decoded). -/
theorem fetchWeatherData_outcomes_witness :
    ((fetchWeatherData unreachableWorld "10" "20").err =
        some ("failed to fetch weather data: " ++ "dial tcp: connection refused") ∧
      (fetchWeatherData unreachableWorld "10" "20").resp = WeatherResponse.zero) ∧
    ((fetchWeatherData brokenBodyWorld "10" "20").err =
        some ("failed to read response body: " ++ "unexpected EOF") ∧
      (fetchWeatherData brokenBodyWorld "10" "20").resp = WeatherResponse.zero) ∧
    ((fetchWeatherData mistypedWorld "10" "20").err =
        some ("failed to decode weather data: " ++
          "json: cannot unmarshal string into Go struct field WeatherResponse.weather of type []main.WeatherData") ∧
      (fetchWeatherData mistypedWorld "10" "20").resp = WeatherResponse.zero) ∧
    ((fetchWeatherData noConditionWorld "10" "20").err = none ∧
      (fetchWeatherData noConditionWorld "10" "20").resp =
        { Main := { Temp := 293.15 }, Weather := [] }) :=
  ⟨(fetchWeatherData_outcomes unreachableWorld "10" "20").1 _ rfl,
    (fetchWeatherData_outcomes brokenBodyWorld "10" "20").2.1 _ _ rfl rfl,
    (fetchWeatherData_outcomes mistypedWorld "10" "20").2.2.1 _ _ _ _ rfl rfl rfl,
    (fetchWeatherData_outcomes noConditionWorld "10" "20").2.2.2.1 _ _ _ rfl rfl rfl⟩

/-! ## C9: the provider URL -/

/-- C9. For all strings `lat` and `long` the one URL `fetchWeatherData` requests is the
base URL, `lat=` and `lat`, `&lon=` and `long`, `&appid=` and the key, the two strings as
they are; and the handler, when both query values are non-empty, requests that URL of
the two values `Get` returned. -/
theorem provider_url (world : World) (lat long : String) :
    apiURL lat long =
      "https://api.openweathermap.org/data/2.5/weather?lat=" ++ lat ++ "&lon=" ++ long ++
        "&appid=" ++ openWeatherAPIKey ∧
    (fetchWeatherData world lat long).requested =
      ["https://api.openweathermap.org/data/2.5/weather?lat=" ++ lat ++ "&lon=" ++ long ++
        "&appid=" ++ "YOUR_API_KEY"] ∧
    (∀ r : Request, r.query.Get "lat" = lat → r.query.Get "long" = long →
      lat ≠ "" → long ≠ "" →
      (weatherHandler world r).requested =
        ["https://api.openweathermap.org/data/2.5/weather?lat=" ++ lat ++ "&lon=" ++ long ++
          "&appid=" ++ "YOUR_API_KEY"]) := by
  refine ⟨rfl, fetchWeatherData_requested world lat long, fun r h1 h2 hlat hlong => ?_⟩
  subst h1 h2
  have hn : ¬ (r.query.Get "lat" = "" ∨ r.query.Get "long" = "") := by
    rintro (h | h)
    · exact hlat h
    · exact hlong h
  cases he : (fetchWeatherData world (r.query.Get "lat") (r.query.Get "long")).err with
  | none => exact (weatherHandler_fetched world r hlat hlong he).2
  | some e => exact (weatherHandler_failed world r e hlat hlong he).2

/-- C9 at values that are no coordinates: a blank and an ampersand go into the URL as
they are. -/
theorem provider_url_witness :
    (weatherHandler exampleWorld oddRequest).requested =
      ["https://api.openweathermap.org/data/2.5/weather?lat=north pole&lon=1&appid=x&appid=YOUR_API_KEY"] :=
  (provider_url exampleWorld "north pole" "1&appid=x").2.2 oddRequest rfl rfl
    (by decide) (by decide)

/-! ## C10: the category against the temperature -/

/-- The rank of the category of a Celsius value. -/
theorem categoryRank_getTemperatureCategory (c : ℚ) :
    categoryRank (getTemperatureCategory c) = if c < 5 then 0 else if c > 25 then 2 else 1 := by
  unfold getTemperatureCategory
  split_ifs <;> decide

/-- C10. With exact arithmetic the category does not get colder when the provider's
temperature rises, in the order cold, moderate, hot; and it is "cold" exactly when the
Fahrenheit value is below 41 and "hot" exactly when it is above 77. -/
theorem category_monotone (K1 K2 : ℚ) (conditions1 conditions2 : List WeatherData)
    (h : K1 ≤ K2) :
    categoryRank (getTemperatureCategory
        (getTemperatureCelsius { Main := { Temp := K1 }, Weather := conditions1 })) ≤
      categoryRank (getTemperatureCategory
        (getTemperatureCelsius { Main := { Temp := K2 }, Weather := conditions2 })) ∧
    (∀ c : ℚ,
      (getTemperatureCategory c = "cold" ↔ celsiusToFahrenheit c < 41) ∧
      (getTemperatureCategory c = "hot" ↔ celsiusToFahrenheit c > 77)) := by
  constructor
  · rw [categoryRank_getTemperatureCategory, categoryRank_getTemperatureCategory]
    unfold getTemperatureCelsius
    simp only []
    split_ifs <;> first | omega | (exfalso; linarith)
  · intro c
    have hc : getTemperatureCategory c = "cold" ↔ c < 5 := by
      unfold getTemperatureCategory
      split_ifs <;> simp [*]
    have hh : getTemperatureCategory c = "hot" ↔ c > 25 := by
      unfold getTemperatureCategory
      split_ifs with h1 h2
      · have : ¬ c > 25 := by linarith
        simp [this]
      · simp [h2]
      · simp [h2]
    rw [hc, hh]
    unfold celsiusToFahrenheit
    constructor <;> constructor <;> intro h <;> linarith

/-- C10 at 277 K and 300 K: cold is below hot. -/
theorem category_monotone_witness :
    categoryRank (getTemperatureCategory
        (getTemperatureCelsius { Main := { Temp := 277 }, Weather := [] })) ≤
      categoryRank (getTemperatureCategory
        (getTemperatureCelsius { Main := { Temp := 300 }, Weather := [] })) ∧
    getTemperatureCategory (getTemperatureCelsius { Main := { Temp := 277 }, Weather := [] }) =
      "cold" ∧
    getTemperatureCategory (getTemperatureCelsius { Main := { Temp := 300 }, Weather := [] }) =
      "hot" :=
  ⟨(category_monotone 277 300 [] [] (by norm_num)).1, by decide!, by decide!⟩

end WeatherServer
